import Mathlib

/-!
Shallow embedding of the innogy puck-catcher game's simulation core
(src/js/game/Game.js, src/js/game/State.js, src/js/game/Physics.js,
src/js/entities/{Puck,Goalie,Goal,Confetti}.js, src/js/utils/constants.js).

JS numbers are modelled as rationals (`ℚ`); the game code only performs
field arithmetic, comparisons, `min`/`max` and `Math.abs` on them, so over
the inputs considered here the JS float semantics and `ℚ` agree.
Randomized and transcendental quantities (Math.random, atan2/cos/sin in the
Puck constructor, Math.pow in the goalie easing) are taken as explicit
parameters; every field that the game logic branches on is embedded exactly.
-/

namespace PuckGame

/-! ## Constants (src/js/utils/constants.js) -/

namespace CANVAS

def WIDTH : ℚ := 600

def HEIGHT : ℚ := 600

end CANVAS

namespace GAME

def INITIAL_LIVES : ℤ := 3

def INITIAL_SPAWN_INTERVAL : ℚ := 800

def INITIAL_SPEED : ℚ := 7

def DIFFICULTY_RAMP_INTERVAL : ℚ := 6000

def SPAWN_INTERVAL_DECREASE : ℚ := 50

def SPEED_INCREASE : ℚ := 35 / 100

def MIN_SPAWN_INTERVAL : ℚ := 400

def MAX_SPEED : ℚ := 16

end GAME

namespace PUCK

def MIN_RADIUS : ℚ := 7

def MAX_RADIUS : ℚ := 7

def SPAWN_Y : ℚ := -30

def OFFSCREEN_MARGIN : ℚ := 40

end PUCK

namespace GOAL

def WIDTH : ℚ := 240

def HEIGHT : ℚ := 80

def Y_OFFSET : ℚ := 80

end GOAL

namespace EFFECTS

def CONFETTI_COUNT : ℕ := 18

def CONFETTI_COUNT_GOLD : ℕ := 44

def CATCH_FLASH_DECAY : ℚ := 9 / 100

def CATCH_TEXT_DURATION : ℚ := 30

end EFFECTS

/-! Constants local to src/js/entities/Goalie.js (the GOALIE object). -/
namespace GOALIE

def WIDTH : ℚ := 178

def HEIGHT : ℚ := 91

def Y_OFFSET : ℚ := 130

def MOVE_EASING : ℚ := 18 / 100

def MARGIN : ℚ := 60

def CATCH_WIDTH : ℚ := 110

def CATCH_HEIGHT : ℚ := 60

end GOALIE

/-! ## Game status and state (src/js/game/State.js) -/

/-- The `GameStatus` enum of State.js. -/
inductive GameStatus where
  | idle
  | playing
  | paused
  | ended
deriving DecidableEq, Repr

/-- The `catchText` effect object set by `GameState.incrementScore`. -/
structure CatchText where
  x : ℚ
  y : ℚ
  ttl : ℚ
  value : ℕ
deriving DecidableEq, Repr

/-- The `GameState` class fields (State.js constructor / `reset`). -/
structure GameState where
  status : GameStatus
  score : ℕ
  lives : ℤ
  bestScore : ℕ
  frameCount : ℚ
  spawnInterval : ℚ
  speedBase : ℚ
  spawnTimer : ℚ
  difficultyTimer : ℚ
  catchFlash : ℚ
  catchText : Option CatchText
deriving DecidableEq, Repr

namespace GameState

/-- `GameState.reset()`: reinitialize every field; `bestScore` is carried
over from the receiver (`this.bestScore || 0`, which on a natural number is
the number itself). -/
def reset (s : GameState) : GameState where
  status := .idle
  score := 0
  lives := GAME.INITIAL_LIVES
  bestScore := s.bestScore
  frameCount := 0
  spawnInterval := GAME.INITIAL_SPAWN_INTERVAL
  speedBase := GAME.INITIAL_SPEED
  spawnTimer := 0
  difficultyTimer := 0
  catchFlash := 0
  catchText := none

/-- The state built by `new GameState()` (constructor calls `reset` with
`this.bestScore` undefined, i.e. bestScore 0). -/
def initial : GameState where
  status := .idle
  score := 0
  lives := GAME.INITIAL_LIVES
  bestScore := 0
  frameCount := 0
  spawnInterval := GAME.INITIAL_SPAWN_INTERVAL
  speedBase := GAME.INITIAL_SPEED
  spawnTimer := 0
  difficultyTimer := 0
  catchFlash := 0
  catchText := none

/-- `GameState.start()`: Idle → Playing, otherwise unchanged. -/
def start (s : GameState) : GameState :=
  if s.status = .idle then { s with status := .playing } else s

/-- `GameState.pause()`: Playing → Paused, otherwise unchanged. -/
def pause (s : GameState) : GameState :=
  if s.status = .playing then { s with status := .paused } else s

/-- `GameState.resume()`: Paused → Playing, otherwise unchanged. -/
def resume (s : GameState) : GameState :=
  if s.status = .paused then { s with status := .playing } else s

/-- `GameState.togglePause()`. -/
def togglePause (s : GameState) : GameState :=
  if s.status = .playing then s.pause
  else if s.status = .paused then s.resume
  else s

/-- `GameState.end()` (named `endGame` here because `end` is a Lean
keyword): unconditionally sets status to Ended. -/
def endGame (s : GameState) : GameState :=
  { s with status := .ended }

/-- `GameState.incrementScore(x, y)`: score++, catchFlash = 1, and a fresh
catchText whose displayed value is the incremented score. -/
def incrementScore (s : GameState) (x y : ℚ) : GameState :=
  { s with
    score := s.score + 1
    catchFlash := 1
    catchText := some { x := x, y := y, ttl := EFFECTS.CATCH_TEXT_DURATION,
                        value := s.score + 1 } }

/-- `GameState.decrementLives()`: `this.lives--`, returning true when the
game should end (`this.lives <= 0` after the decrement). -/
def decrementLives (s : GameState) : GameState × Bool :=
  let s' := { s with lives := s.lives - 1 }
  (s', decide (s'.lives ≤ 0))

/-- `GameState.updateDifficulty(elapsedMs)`: accumulate the ramp timer;
on reaching `DIFFICULTY_RAMP_INTERVAL`, reset it and apply one clamped
step to `spawnInterval` and `speedBase`. -/
def updateDifficulty (s : GameState) (elapsedMs : ℚ) : GameState :=
  let t := s.difficultyTimer + elapsedMs
  if GAME.DIFFICULTY_RAMP_INTERVAL ≤ t then
    { s with
      difficultyTimer := 0
      spawnInterval :=
        max GAME.MIN_SPAWN_INTERVAL (s.spawnInterval - GAME.SPAWN_INTERVAL_DECREASE)
      speedBase := min GAME.MAX_SPEED (s.speedBase + GAME.SPEED_INCREASE) }
  else
    { s with difficultyTimer := t }

/-- `GameState.updateEffects(delta)`: catchFlash decays by
`CATCH_FLASH_DECAY * delta`, floored at 0 by `Math.max`; the catchText ttl
decreases by `delta` and the object is discarded once ttl ≤ 0. -/
def updateEffects (s : GameState) (delta : ℚ) : GameState :=
  { s with
    catchFlash := max 0 (s.catchFlash - EFFECTS.CATCH_FLASH_DECAY * delta)
    catchText :=
      match s.catchText with
      | none => none
      | some ct =>
          let ttl' := ct.ttl - delta
          if ttl' ≤ 0 then none else some { ct with ttl := ttl' } }

/-- `GameState.shouldSpawn(elapsedMs)`: accumulate the spawn timer; when it
reaches `spawnInterval`, reset it to exactly 0 and report a spawn. -/
def shouldSpawn (s : GameState) (elapsedMs : ℚ) : GameState × Bool :=
  let t := s.spawnTimer + elapsedMs
  if s.spawnInterval ≤ t then ({ s with spawnTimer := 0 }, true)
  else ({ s with spawnTimer := t }, false)

/-- `GameState.tick(delta)`: frameCount += delta. -/
def tick (s : GameState) (delta : ℚ) : GameState :=
  { s with frameCount := s.frameCount + delta }

/-- `GameState.setBestScore(score)`. -/
def setBestScore (s : GameState) (score : ℕ) : GameState :=
  { s with bestScore := score }

/-- `GameState.updateBestScore()`. -/
def updateBestScore (s : GameState) : GameState :=
  if s.bestScore < s.score then { s with bestScore := s.score } else s

end GameState

/-! ## Loop timing (src/js/game/Game.js, constructor and `loop`) -/

/-- `this.targetFPS = 60`. -/
def targetFPS : ℚ := 60

/-- `this.targetFrameTime = 1000 / this.targetFPS`. -/
def targetFrameTime : ℚ := 1000 / targetFPS

/-- The elapsed milliseconds computed at the top of `Game.loop`:
`Math.min(timestamp - this.lastTime, 50)`. -/
def loopElapsedMs (timestamp lastTime : ℚ) : ℚ :=
  min (timestamp - lastTime) 50

/-- The speed multiplier of `Game.loop`: `elapsedMs / this.targetFrameTime`. -/
def loopDelta (elapsedMs : ℚ) : ℚ :=
  elapsedMs / targetFrameTime

/-! ## Entities -/

/-- A rectangle bounds record as returned by `getBounds`/`getCatchBounds`. -/
structure Bounds where
  left : ℚ
  right : ℚ
  top : ℚ
  bottom : ℚ
deriving DecidableEq, Repr

/-- The `Puck` entity (src/js/entities/Puck.js). -/
structure Puck where
  x : ℚ
  y : ℚ
  vx : ℚ
  vy : ℚ
  prevY : ℚ
  radius : ℚ
  squash : ℚ
  caught : Bool
  scored : Bool
  markedForRemoval : Bool
deriving DecidableEq, Repr

namespace Puck

/-- The `Puck` constructor. Position and velocity are computed from
`Math.random`, `Math.atan2`, `Math.cos`, `Math.sin` (randomized,
transcendental reals) and are taken here as parameters `x y vx vy`; the
deterministic part of the constructor is embedded exactly: `prevY = y`,
`radius = randomRange(MIN_RADIUS, MAX_RADIUS) = 7` (the two bounds are
equal), and the flags `caught`, `scored`, `markedForRemoval` start false
with `squash = 0`. -/
def spawn (x y vx vy : ℚ) : Puck where
  x := x
  y := y
  vx := vx
  vy := vy
  prevY := y
  radius := PUCK.MIN_RADIUS
  squash := 0
  caught := false
  scored := false
  markedForRemoval := false

/-- `Puck.update(delta)`: integrate position by velocity × delta, then
bounce elastically off the left/right walls (clamp position, reflect vx). -/
def update (p : Puck) (delta : ℚ) : Puck :=
  let p := { p with prevY := p.y, y := p.y + p.vy * delta, x := p.x + p.vx * delta }
  if p.x - p.radius < 0 then
    { p with x := p.radius, vx := |p.vx| }
  else if CANVAS.WIDTH < p.x + p.radius then
    { p with x := CANVAS.WIDTH - p.radius, vx := -|p.vx| }
  else p

/-- `Puck.isOffScreen()`: below the bottom off-screen margin. -/
def isOffScreen (p : Puck) : Bool :=
  decide (CANVAS.HEIGHT + PUCK.OFFSCREEN_MARGIN < p.y)

/-- `Puck.catch()` (named `doCatch` here because `catch` is reserved in
Lean): set `caught` and `markedForRemoval`. -/
def doCatch (p : Puck) : Puck :=
  { p with caught := true, markedForRemoval := true }

end Puck

/-- The `Goalie` entity (src/js/entities/Goalie.js). -/
structure Goalie where
  width : ℚ
  height : ℚ
  x : ℚ
  y : ℚ
  catchFlash : ℚ
  catchAnimation : ℚ
deriving DecidableEq, Repr

namespace Goalie

/-- The `Goalie` constructor. -/
def initial : Goalie where
  width := GOALIE.WIDTH
  height := GOALIE.HEIGHT
  x := CANVAS.WIDTH / 2
  y := CANVAS.HEIGHT - GOALIE.Y_OFFSET
  catchFlash := 0
  catchAnimation := 0

/-- The decay portion of `Goalie.update(targetX, delta)` (Goalie.js lines
44-51): `catchAnimation` and `catchFlash` are decremented by a fixed rate
× delta while positive, with NO floor applied. The easing move of the same
method touches only `x`, via `Math.pow(1 - MOVE_EASING, delta)` — a
real-valued power abstracted in the frame model (`Game.update`) as the
parameter `easedX`; it neither reads nor writes the two decay fields. -/
def updateFlashes (g : Goalie) (delta : ℚ) : Goalie :=
  let g := if 0 < g.catchAnimation then
             { g with catchAnimation := g.catchAnimation - (8 / 100) * delta }
           else g
  if 0 < g.catchFlash then
    { g with catchFlash := g.catchFlash - EFFECTS.CATCH_FLASH_DECAY * delta }
  else g

/-- `Goalie.triggerCatch()`. -/
def triggerCatch (g : Goalie) : Goalie :=
  { g with catchAnimation := 1, catchFlash := 1 }

/-- `Goalie.getCatchBounds()`. -/
def getCatchBounds (g : Goalie) : Bounds where
  left := g.x - GOALIE.CATCH_WIDTH / 2
  right := g.x + GOALIE.CATCH_WIDTH / 2
  top := g.y - g.height / 2
  bottom := g.y - g.height / 2 + GOALIE.CATCH_HEIGHT

/-- `Goalie.reset()`. -/
def reset (g : Goalie) : Goalie :=
  { g with x := CANVAS.WIDTH / 2, catchFlash := 0, catchAnimation := 0 }

end Goalie

/-- The `Goal` entity (src/js/entities/Goal.js). -/
structure Goal where
  width : ℚ
  height : ℚ
  x : ℚ
  y : ℚ
  goalFlash : ℚ
deriving DecidableEq, Repr

namespace Goal

/-- The `Goal` constructor. -/
def initial : Goal where
  width := GOAL.WIDTH
  height := GOAL.HEIGHT
  x := CANVAS.WIDTH / 2
  y := CANVAS.HEIGHT - GOAL.Y_OFFSET
  goalFlash := 0

/-- `Goal.triggerGoal()`. -/
def triggerGoal (g : Goal) : Goal :=
  { g with goalFlash := 1 }

/-- `Goal.update(delta)`: while positive, `goalFlash` decays by
`CATCH_FLASH_DECAY * delta` and is clamped back to 0 if it went negative. -/
def update (g : Goal) (delta : ℚ) : Goal :=
  if 0 < g.goalFlash then
    let f := g.goalFlash - EFFECTS.CATCH_FLASH_DECAY * delta
    { g with goalFlash := if f < 0 then 0 else f }
  else g

/-- `Goal.reset()`. -/
def reset (g : Goal) : Goal :=
  { g with goalFlash := 0 }

/-- `Goal.getBounds()`: the goal opening. -/
def getBounds (g : Goal) : Bounds where
  left := g.x - g.width / 2
  right := g.x + g.width / 2
  top := g.y
  bottom := g.y + g.height

end Goal

/-! ## Physics (src/js/game/Physics.js) -/

/-- `checkGoalieCatch(puck, goalie)`: the puck's center lies inside the
goalie's catch-zone rectangle. -/
def checkGoalieCatch (p : Puck) (goalie : Goalie) : Bool :=
  let bounds := goalie.getCatchBounds
  decide (bounds.left ≤ p.x) && decide (p.x ≤ bounds.right) &&
  decide (bounds.top ≤ p.y) && decide (p.y ≤ bounds.bottom)

/-- `checkPuckInGoal(puck, goal)`: the puck's center lies inside the goal
opening. -/
def checkPuckInGoal (p : Puck) (goal : Goal) : Bool :=
  let bounds := goal.getBounds
  decide (bounds.left ≤ p.x) && decide (p.x ≤ bounds.right) &&
  decide (bounds.top ≤ p.y) && decide (p.y ≤ bounds.bottom)

/-! ## Confetti (src/js/entities/Confetti.js)

Only the `life` field of a particle is read by the core logic (removal on
`life <= 0`); position, velocity, gravity, rotation and color are
render-only randomized floats and are omitted. -/

/-- A `ConfettiParticle`, reduced to its `life` countdown. The constructor
sets `life = (isGold ? 62 : 42) + Math.random() * 22`; the random part is
the parameter `lifeSeed`. -/
structure ConfettiParticle where
  life : ℚ
deriving DecidableEq, Repr

namespace ConfettiParticle

/-- The life initialization of the `ConfettiParticle` constructor. -/
def spawn (isGold : Bool) (lifeSeed : ℚ) : ConfettiParticle where
  life := (if isGold then 62 else 42) + lifeSeed

/-- `ConfettiParticle.update(delta)`: `life -= delta` (the position and
rotation integration touches only omitted render fields). -/
def update (p : ConfettiParticle) (delta : ℚ) : ConfettiParticle :=
  { p with life := p.life - delta }

/-- `ConfettiParticle.isAlive()`. -/
def isAlive (p : ConfettiParticle) : Bool :=
  decide (0 < p.life)

end ConfettiParticle

/-- The `ConfettiSystem`. -/
structure ConfettiSystem where
  particles : List ConfettiParticle
deriving DecidableEq, Repr

namespace ConfettiSystem

/-- `ConfettiSystem.spawn(x, y, isGold)`: push `CONFETTI_COUNT` (or
`CONFETTI_COUNT_GOLD`) new particles. All particles of the burst share the
abstracted random seed. -/
def spawn (c : ConfettiSystem) (isGold : Bool) (lifeSeed : ℚ) : ConfettiSystem where
  particles := c.particles ++
    List.replicate
      (if isGold then EFFECTS.CONFETTI_COUNT_GOLD else EFFECTS.CONFETTI_COUNT)
      (ConfettiParticle.spawn isGold lifeSeed)

/-- `ConfettiSystem.update(delta)`: update all particles, drop dead ones. -/
def update (c : ConfettiSystem) (delta : ℚ) : ConfettiSystem where
  particles := (c.particles.map (fun p => p.update delta)).filter
    (fun p => p.isAlive)

/-- `ConfettiSystem.clear()`. -/
def clear (_ : ConfettiSystem) : ConfettiSystem where
  particles := []

end ConfettiSystem

/-! ## The Game controller (src/js/game/Game.js)

The rendering, DOM and input collaborators are out of the simulation core:
the canvas, UI element updates and the requestAnimationFrame plumbing have
no effect on the fields below and are omitted. The external leaderboard
store (localStorage / remote API) is modelled by its only observable used
by the core, the all-time best score it would report, as
`leaderboardBest : Option ℕ` (`none` = no leaderboard attached).
`endCalls` is an instrumentation counter incremented exactly where the
source invokes `this.end()`, so that "end() is invoked exactly once" is a
statement about the model. -/

structure Game where
  state : GameState
  goalie : Goalie
  goal : Goal
  confetti : ConfettiSystem
  pucks : List Puck
  endOverlayIsAllTime : Option Bool
  leaderboardBest : Option ℕ
  endCalls : ℕ
deriving DecidableEq, Repr

namespace Game

/-- `Game.end()` (named `endGame` because `end` is reserved): compute
`isAllTimeRecord` against the leaderboard's previous best (or the session
best when no leaderboard is attached), submit the score to the leaderboard
store, update the session best score, set the end overlay (with three gold
confetti bursts at the goalie on an all-time record), and transition the
lifecycle to Ended. The score submission is fire-and-forget; its only
effect on the model is that the store now also contains this game's score. -/
def endGame (g : Game) (lifeSeed : ℚ) : Game :=
  let previousBest : ℕ :=
    match g.leaderboardBest with
    | some b => b
    | none => g.state.bestScore
  let isAllTimeRecord : Bool := decide (previousBest < g.state.score)
  let lb := g.leaderboardBest.map (fun b => max b g.state.score)
  let st := g.state.updateBestScore
  let conf :=
    if isAllTimeRecord then
      ((g.confetti.spawn true lifeSeed).spawn true lifeSeed).spawn true lifeSeed
    else g.confetti
  { g with
    leaderboardBest := lb
    state := st.endGame
    confetti := conf
    endOverlayIsAllTime := some isAllTimeRecord
    endCalls := g.endCalls + 1 }

/-- `Game.restart()`: cancel the loop (external), reset the session state,
clear pucks and confetti, reset the goalie, goal and input collaborator,
drop the end overlay, and — when a leaderboard is attached — reload the
best score from its store (`this.leaderboard.getBestScore()`). -/
def restart (g : Game) : Game :=
  let st := g.state.reset
  let st :=
    match g.leaderboardBest with
    | some b => st.setBestScore b
    | none => st
  { g with
    state := st
    pucks := []
    confetti := g.confetti.clear
    goalie := g.goalie.reset
    goal := g.goal.reset
    endOverlayIsAllTime := none }

/-- One iteration of the collision loop of `Game.update` for a single
puck: move the puck; skip it entirely if already caught or scored;
otherwise test the goal opening first (flag `scored`, mark for removal,
trigger the goal flash, decrement lives and invoke `end()` when lives
reach 0), and only if that test fails test the goalie's catch zone (flag
`caught` + mark via `puck.catch()`, trigger the catch animation, spawn a
confetti burst, increment the score with the catch-text effect). -/
def processPuck (delta lifeSeed : ℚ) (g : Game) (p : Puck) : Game × Puck :=
  let p := p.update delta
  if p.caught || p.scored then (g, p)
  else if checkPuckInGoal p g.goal then
    let p := { p with scored := true, markedForRemoval := true }
    let (st, gameOver) := g.state.decrementLives
    let g := { g with goal := g.goal.triggerGoal, state := st }
    if gameOver then (g.endGame lifeSeed, p) else (g, p)
  else if checkGoalieCatch p g.goalie then
    let p := p.doCatch
    ({ g with
       goalie := g.goalie.triggerCatch
       confetti := g.confetti.spawn false lifeSeed
       state := g.state.incrementScore p.x (g.goalie.y - 60) }, p)
  else (g, p)

/-- The `for (const puck of this.pucks)` loop of `Game.update`, processing
the pucks in order while threading the mutated game through. Returns the
game together with the updated puck list (the JS loop mutates the pucks in
place). -/
def collisionLoop (delta lifeSeed : ℚ) : Game → List Puck → Game × List Puck
  | g, [] => (g, [])
  | g, p :: ps =>
      let gp := processPuck delta lifeSeed g p
      let rest := collisionLoop delta lifeSeed gp.1 ps
      (rest.1, gp.2 :: rest.2)

/-- The active puck list after the spawn phase of `Game.update`: when
`shouldSpawn` fires, one new puck (constructor randomness abstracted as
`px py pvx pvy`) is pushed. -/
def framePucks (g : Game) (elapsedMs px py pvx pvy : ℚ) : List Puck :=
  if (g.state.shouldSpawn elapsedMs).2 then
    g.pucks ++ [Puck.spawn px py pvx pvy]
  else g.pucks

/-- `Game.update(delta, elapsedMs)`, the whole simulation frame:
input/goalie easing (the eased, clamped goalie position — a real-valued
computation, see `Goalie.updateFlashes` — is the parameter `easedX`),
spawn phase, difficulty update, the per-puck collision loop, removal of
marked and off-screen pucks, and the effects/tick updates. `lifeSeed`
abstracts the confetti randomness and `px py pvx pvy` the spawned puck's
randomized trajectory. -/
def update (g : Game) (easedX delta elapsedMs lifeSeed px py pvx pvy : ℚ) : Game :=
  let goalie := { g.goalie.updateFlashes delta with x := easedX }
  let st := (g.state.shouldSpawn elapsedMs).1
  let pucks := g.framePucks elapsedMs px py pvx pvy
  let st := st.updateDifficulty elapsedMs
  let g := { g with goalie := goalie, state := st, pucks := pucks }
  let gl := collisionLoop delta lifeSeed g g.pucks
  let g := gl.1
  let pucks := gl.2.filter (fun p => !p.markedForRemoval && !p.isOffScreen)
  { g with
    pucks := pucks
    confetti := g.confetti.update delta
    goal := g.goal.update delta
    state := (g.state.updateEffects delta).tick delta }

end Game

/-! ## Iterated-call helpers and sample inputs -/

/-- A sequence of `GameState.updateDifficulty` calls with the given
per-call elapsed milliseconds. -/
def difficultyFold (s : GameState) (es : List ℚ) : GameState :=
  es.foldl GameState.updateDifficulty s

/-- A sequence of `GameState.shouldSpawn` calls, returning the final state
together with how many of the calls reported a spawn. -/
def spawnFold (s : GameState) : List ℚ → GameState × ℕ
  | [] => (s, 0)
  | e :: es =>
      let r := s.shouldSpawn e
      let rest := spawnFold r.1 es
      (rest.1, (if r.2 then 1 else 0) + rest.2)

/-- Observation predicate on `Game.update`'s collision loop: an active
(not yet caught or scored) puck whose moved position lies in the goal
opening, i.e. a puck that enters the goal this frame. -/
def Puck.entersGoal (p : Puck) (delta : ℚ) (goal : Goal) : Bool :=
  let p' := p.update delta
  !(p'.caught || p'.scored) && checkPuckInGoal p' goal

/-- A puck sitting just above the goal opening, falling straight down. -/
def sampleGoalPuck : Puck := Puck.spawn 300 525 0 1

/-- A puck already flagged as caught. -/
def sampleCaughtPuck : Puck := (Puck.spawn 300 450 0 1).doCatch

/-- A running session down to its last life. -/
def samplePlaying : GameState :=
  { GameState.initial with status := .playing, lives := 1 }

/-- A running game, one life left, with two pucks about to enter the goal
in the same frame and no leaderboard attached. -/
def sampleGame : Game where
  state := samplePlaying
  goalie := Goalie.initial
  goal := Goal.initial
  confetti := ⟨[]⟩
  pucks := [sampleGoalPuck, sampleGoalPuck]
  endOverlayIsAllTime := none
  leaderboardBest := none
  endCalls := 0

/-- A game whose session best score (10, e.g. loaded from the remote API
at init) differs from the attached leaderboard store's best (5). -/
def sampleGameLB : Game :=
  { sampleGame with
    state := { samplePlaying with bestScore := 10 }
    leaderboardBest := some 5 }

/-! ## Theorems -/

/-- Difficulty invariant: step preservation and step monotonicity of
`GameState.updateDifficulty`. -/
theorem updateDifficulty_step (s : GameState) (e : ℚ)
    (h : GAME.MIN_SPAWN_INTERVAL ≤ s.spawnInterval ∧ s.speedBase ≤ GAME.MAX_SPEED) :
    (GAME.MIN_SPAWN_INTERVAL ≤ (s.updateDifficulty e).spawnInterval ∧
      (s.updateDifficulty e).speedBase ≤ GAME.MAX_SPEED) ∧
    (s.updateDifficulty e).spawnInterval ≤ s.spawnInterval ∧
    s.speedBase ≤ (s.updateDifficulty e).speedBase := by
  dsimp only [GameState.updateDifficulty]
  split
  · refine ⟨⟨le_max_left _ _, min_le_left _ _⟩, ?_, ?_⟩
    · exact max_le h.1 (by
        have : (0:ℚ) ≤ GAME.SPAWN_INTERVAL_DECREASE := by norm_num [GAME.SPAWN_INTERVAL_DECREASE]
        linarith)
    · refine le_min h.2 ?_
      have : (0:ℚ) ≤ GAME.SPEED_INCREASE := by norm_num [GAME.SPEED_INCREASE]
      linarith
  · exact ⟨⟨h.1, h.2⟩, le_rfl, le_rfl⟩

/-- Difficulty invariant over any call sequence. -/
theorem difficultyFold_inv (es : List ℚ) (s : GameState)
    (h : GAME.MIN_SPAWN_INTERVAL ≤ s.spawnInterval ∧ s.speedBase ≤ GAME.MAX_SPEED) :
    (GAME.MIN_SPAWN_INTERVAL ≤ (difficultyFold s es).spawnInterval ∧
      (difficultyFold s es).speedBase ≤ GAME.MAX_SPEED) ∧
    (difficultyFold s es).spawnInterval ≤ s.spawnInterval ∧
    s.speedBase ≤ (difficultyFold s es).speedBase := by
  induction es generalizing s with
  | nil => exact ⟨h, le_rfl, le_rfl⟩
  | cons e es ih =>
      have hstep := updateDifficulty_step s e h
      have hrest := ih (s.updateDifficulty e) hstep.1
      exact ⟨hrest.1, hrest.2.1.trans hstep.2.1, hstep.2.2.trans hrest.2.2⟩

/-- C3: Across any sequence of `updateDifficulty` calls starting from the
initial state, `spawnInterval` is non-increasing (comparing any call
sequence with any extension of it) and never falls below
`MIN_SPAWN_INTERVAL` (400 ms), and `speedBase` is non-decreasing and never
exceeds `MAX_SPEED` (16.0). -/
theorem C3_difficulty_monotone_bounded (es more : List ℚ) :
    GAME.MIN_SPAWN_INTERVAL ≤ (difficultyFold GameState.initial (es ++ more)).spawnInterval ∧
    (difficultyFold GameState.initial (es ++ more)).spawnInterval ≤
      (difficultyFold GameState.initial es).spawnInterval ∧
    (difficultyFold GameState.initial es).speedBase ≤
      (difficultyFold GameState.initial (es ++ more)).speedBase ∧
    (difficultyFold GameState.initial (es ++ more)).speedBase ≤ GAME.MAX_SPEED := by
  have hinit : GAME.MIN_SPAWN_INTERVAL ≤ GameState.initial.spawnInterval ∧
      GameState.initial.speedBase ≤ GAME.MAX_SPEED := by
    norm_num [GameState.initial, GAME.MIN_SPAWN_INTERVAL, GAME.INITIAL_SPAWN_INTERVAL,
      GAME.INITIAL_SPEED, GAME.MAX_SPEED]
  have h1 := difficultyFold_inv es GameState.initial hinit
  have happ : difficultyFold GameState.initial (es ++ more) =
      difficultyFold (difficultyFold GameState.initial es) more := by
    simp [difficultyFold, List.foldl_append]
  have h2 := difficultyFold_inv more (difficultyFold GameState.initial es) h1.1
  rw [happ]
  exact ⟨h2.1.1, h2.2.1, h2.2.2, h2.1.2⟩

/-- C5: For every tick, the elapsed time used by the simulation is the raw
timestamp difference clamped to at most 50 ms, the speed multiplier is
that elapsed time divided by the target frame duration `1000/60` ms
(equivalently `elapsed * 60 / 1000`), and delta is exactly 1 when the
elapsed time equals the target frame duration. -/
theorem C5_loop_timing (timestamp lastTime : ℚ) :
    loopElapsedMs timestamp lastTime ≤ 50 ∧
    (timestamp - lastTime ≤ 50 →
      loopElapsedMs timestamp lastTime = timestamp - lastTime) ∧
    (50 ≤ timestamp - lastTime → loopElapsedMs timestamp lastTime = 50) ∧
    targetFrameTime = 1000 / 60 ∧
    loopDelta (loopElapsedMs timestamp lastTime) =
      loopElapsedMs timestamp lastTime * 60 / 1000 ∧
    (loopElapsedMs timestamp lastTime = targetFrameTime →
      loopDelta (loopElapsedMs timestamp lastTime) = 1) := by
  refine ⟨min_le_right _ _, fun h => min_eq_left h, fun h => min_eq_right h, ?_, ?_, ?_⟩
  · norm_num [targetFrameTime, targetFPS]
  · unfold loopDelta targetFrameTime targetFPS
    ring
  · intro h
    rw [h]
    norm_num [loopDelta, targetFrameTime, targetFPS]

/-- Witness for C5 at concrete ticks: a tick one target-frame after the
previous one gets delta exactly 1, and a 100 ms gap is clamped to 50 ms. -/
theorem C5_loop_timing_witness :
    loopDelta (loopElapsedMs (1000 / 60) 0) = 1 ∧ loopElapsedMs 100 0 = 50 := by
  have h := C5_loop_timing (1000 / 60) 0
  have h2 := C5_loop_timing 100 0
  refine ⟨h.2.2.2.2.2 ?_, h2.2.2.1 (by norm_num)⟩
  rw [h.2.1 (by norm_num)]
  norm_num [targetFrameTime, targetFPS]

/-- C6: Lifecycle transitions outside their valid source state leave the
state unchanged — `pause()` is a no-op unless Playing, `resume()` unless
Paused, `start()` unless Idle — and `pause()` is idempotent. -/
theorem C6_lifecycle_noops (s : GameState) :
    (s.status ≠ GameStatus.playing → s.pause = s) ∧
    (s.status ≠ GameStatus.paused → s.resume = s) ∧
    (s.status ≠ GameStatus.idle → s.start = s) ∧
    s.pause.pause = s.pause := by
  refine ⟨fun h => by simp [GameState.pause, h], fun h => by simp [GameState.resume, h],
    fun h => by simp [GameState.start, h], ?_⟩
  unfold GameState.pause
  split
  · simp
  · rfl

/-- Witness for C6 at concrete states: pausing from Idle and from Ended is
a no-op, resuming from Idle is a no-op, starting from Ended is a no-op,
and double-pause from Playing equals single pause. -/
theorem C6_lifecycle_noops_witness :
    GameState.initial.pause = GameState.initial ∧
    GameState.initial.resume = GameState.initial ∧
    GameState.initial.endGame.start = GameState.initial.endGame ∧
    samplePlaying.pause.pause = samplePlaying.pause := by
  refine ⟨(C6_lifecycle_noops GameState.initial).1 (by decide),
    (C6_lifecycle_noops GameState.initial).2.1 (by decide),
    (C6_lifecycle_noops GameState.initial.endGame).2.2.1 (by decide),
    (C6_lifecycle_noops samplePlaying).2.2.2⟩

/-- While the accumulated ramp timer stays strictly below the ramp
interval, `updateDifficulty` only accumulates time. -/
theorem difficultyFold_no_ramp (es : List ℚ) (s : GameState)
    (hnn : ∀ e ∈ es, 0 ≤ e) (h0 : 0 ≤ s.difficultyTimer)
    (hlt : s.difficultyTimer + es.sum < GAME.DIFFICULTY_RAMP_INTERVAL) :
    difficultyFold s es = { s with difficultyTimer := s.difficultyTimer + es.sum } := by
  induction es generalizing s with
  | nil => simp [difficultyFold]
  | cons e es ih =>
      have hsum : 0 ≤ es.sum :=
        List.sum_nonneg (fun x hx => hnn x (List.mem_cons_of_mem _ hx))
      have he : 0 ≤ e := hnn e (List.mem_cons_self _ _)
      have hne : ¬ GAME.DIFFICULTY_RAMP_INTERVAL ≤ s.difficultyTimer + e := by
        simp only [List.sum_cons] at hlt
        push_neg
        linarith
      have hstep : s.updateDifficulty e = { s with difficultyTimer := s.difficultyTimer + e } := by
        dsimp only [GameState.updateDifficulty]
        rw [if_neg hne]
      have := ih { s with difficultyTimer := s.difficultyTimer + e }
        (fun x hx => hnn x (List.mem_cons_of_mem _ hx)) (by dsimp; linarith)
        (by simp only [List.sum_cons] at hlt; dsimp; linarith)
      calc difficultyFold s (e :: es)
          = difficultyFold (s.updateDifficulty e) es := rfl
        _ = _ := by rw [hstep, this]; simp only [List.sum_cons]; ring_nf

/-- If the calls are nonnegative and the timer plus the total incoming
elapsed time lands exactly on the ramp interval, exactly one ramp step is
applied over the whole sequence. -/
theorem difficultyFold_one_ramp (es : List ℚ) (s : GameState)
    (hnn : ∀ e ∈ es, 0 ≤ e) (h0 : 0 ≤ s.difficultyTimer)
    (hlt : s.difficultyTimer < GAME.DIFFICULTY_RAMP_INTERVAL)
    (hsum : s.difficultyTimer + es.sum = GAME.DIFFICULTY_RAMP_INTERVAL) :
    (difficultyFold s es).spawnInterval =
      max GAME.MIN_SPAWN_INTERVAL (s.spawnInterval - GAME.SPAWN_INTERVAL_DECREASE) ∧
    (difficultyFold s es).speedBase =
      min GAME.MAX_SPEED (s.speedBase + GAME.SPEED_INCREASE) := by
  induction es generalizing s with
  | nil =>
      exfalso
      simp only [List.sum_nil, add_zero] at hsum
      exact absurd hsum (ne_of_lt hlt)
  | cons e es ih =>
      have hrest : 0 ≤ es.sum :=
        List.sum_nonneg (fun x hx => hnn x (List.mem_cons_of_mem _ hx))
      have he : 0 ≤ e := hnn e (List.mem_cons_self _ _)
      simp only [List.sum_cons] at hsum
      by_cases hr : GAME.DIFFICULTY_RAMP_INTERVAL ≤ s.difficultyTimer + e
      · -- the ramp fires on this call; the rest of the sequence sums to 0
        have hes0 : es.sum = 0 := by linarith
        have hstep : s.updateDifficulty e =
            { s with
              difficultyTimer := 0
              spawnInterval :=
                max GAME.MIN_SPAWN_INTERVAL (s.spawnInterval - GAME.SPAWN_INTERVAL_DECREASE)
              speedBase := min GAME.MAX_SPEED (s.speedBase + GAME.SPEED_INCREASE) } := by
          dsimp only [GameState.updateDifficulty]
          rw [if_pos hr]
      -- after the ramp, no further ramp can fire
        have hnone := difficultyFold_no_ramp es (s.updateDifficulty e)
          (fun x hx => hnn x (List.mem_cons_of_mem _ hx))
          (by rw [hstep]) (by
            rw [hstep, hes0]
            norm_num [GAME.DIFFICULTY_RAMP_INTERVAL])
        have : difficultyFold s (e :: es) = difficultyFold (s.updateDifficulty e) es := rfl
        rw [this, hnone, hstep]
        exact ⟨rfl, rfl⟩
      · have hstep : s.updateDifficulty e =
            { s with difficultyTimer := s.difficultyTimer + e } := by
          dsimp only [GameState.updateDifficulty]
          rw [if_neg hr]
        have := ih { s with difficultyTimer := s.difficultyTimer + e }
          (fun x hx => hnn x (List.mem_cons_of_mem _ hx))
          (by dsimp; linarith) (by dsimp; push_neg at hr; exact hr)
          (by dsimp; linarith)
        have hfold : difficultyFold s (e :: es) = difficultyFold (s.updateDifficulty e) es := rfl
        rw [hfold, hstep]
        exact this

/-- C7: Starting from the initial state (spawnInterval 800 ms, ramp timer
0), any sequence of nonnegative elapsed-time updates accumulating exactly
`DIFFICULTY_RAMP_INTERVAL` = 6000 ms leaves the spawn interval at
`max MIN_SPAWN_INTERVAL (800 - SPAWN_INTERVAL_DECREASE)`, i.e. exactly one
ramp step has been applied. -/
theorem C7_first_ramp (es : List ℚ) (hnn : ∀ e ∈ es, 0 ≤ e)
    (hsum : es.sum = GAME.DIFFICULTY_RAMP_INTERVAL) :
    (difficultyFold GameState.initial es).spawnInterval =
      max GAME.MIN_SPAWN_INTERVAL
        (GAME.INITIAL_SPAWN_INTERVAL - GAME.SPAWN_INTERVAL_DECREASE) := by
  have h := difficultyFold_one_ramp es GameState.initial hnn
    (by norm_num [GameState.initial])
    (by norm_num [GameState.initial, GAME.DIFFICULTY_RAMP_INTERVAL])
    (by simpa [GameState.initial] using hsum)
  simpa [GameState.initial] using h.1

/-- Witness for C7: a single 6000 ms update from the initial state yields
spawn interval `max 400 750 = 750`. -/
theorem C7_first_ramp_witness :
    (difficultyFold GameState.initial [6000]).spawnInterval =
      max GAME.MIN_SPAWN_INTERVAL
        (GAME.INITIAL_SPAWN_INTERVAL - GAME.SPAWN_INTERVAL_DECREASE) :=
  C7_first_ramp [6000] (by norm_num)
    (by norm_num [GAME.DIFFICULTY_RAMP_INTERVAL])

/-- The catchFlash component of one effects update. -/
theorem updateEffects_catchFlash (s : GameState) (d : ℚ) :
    (s.updateEffects d).catchFlash =
      max 0 (s.catchFlash - EFFECTS.CATCH_FLASH_DECAY * d) := rfl

/-- Folding the flash decay: after n effects updates at delta = 1, the
catch flash is the initial value minus n times the decay rate, floored at
zero (for a nonnegative initial value). -/
theorem iterate_updateEffects_catchFlash (s : GameState) (n : ℕ)
    (h : 0 ≤ s.catchFlash) :
    ((fun t => GameState.updateEffects t 1)^[n] s).catchFlash =
      max 0 (s.catchFlash - n * EFFECTS.CATCH_FLASH_DECAY) := by
  induction n generalizing s with
  | zero => simp [max_eq_right h]
  | succ n ih =>
      rw [Function.iterate_succ_apply]
      rw [ih (s.updateEffects 1) (by rw [updateEffects_catchFlash]; exact le_max_left _ _)]
      rw [updateEffects_catchFlash]
      rcases le_or_lt (s.catchFlash - EFFECTS.CATCH_FLASH_DECAY * 1) 0 with hle | hgt
      · rw [max_eq_left hle]
        have hd : (0:ℚ) ≤ EFFECTS.CATCH_FLASH_DECAY := by
          norm_num [EFFECTS.CATCH_FLASH_DECAY]
        have hn : (0:ℚ) ≤ (n : ℚ) * EFFECTS.CATCH_FLASH_DECAY :=
          mul_nonneg (by positivity) hd
        rw [max_eq_left (by linarith), max_eq_left]
        push_cast
        nlinarith
      · rw [max_eq_right hgt.le]
        congr 1
        push_cast
        ring

/-- C9: a catch event increments the score by exactly 1 and sets the
session catchFlash to 1.0; at delta = 1 the flash has decayed to exactly 0
after the effects step of the catch frame itself plus 11 subsequent
frames, and 11 ≤ 1/CATCH_FLASH_DECAY = 100/9, i.e. the flash reaches 0
within 1/CATCH_FLASH_DECAY subsequent frames. -/
theorem C9_catch_scoring_and_flash_decay (s : GameState) (x y : ℚ) :
    (s.incrementScore x y).score = s.score + 1 ∧
    (s.incrementScore x y).catchFlash = 1 ∧
    ((fun t => GameState.updateEffects t 1)^[1 + 11] (s.incrementScore x y)).catchFlash = 0 ∧
    (11 : ℚ) ≤ 1 / EFFECTS.CATCH_FLASH_DECAY := by
  refine ⟨rfl, rfl, ?_, by norm_num [EFFECTS.CATCH_FLASH_DECAY]⟩
  rw [iterate_updateEffects_catchFlash _ _ (by norm_num [GameState.incrementScore])]
  norm_num [GameState.incrementScore, EFFECTS.CATCH_FLASH_DECAY]

/-- `shouldSpawn` leaves the spawn interval untouched. -/
theorem shouldSpawn_spawnInterval (s : GameState) (e : ℚ) :
    (s.shouldSpawn e).1.spawnInterval = s.spawnInterval := by
  dsimp only [GameState.shouldSpawn]
  split <;> rfl

/-- The collision loop returns exactly one output puck per input puck. -/
theorem collisionLoop_length (delta lifeSeed : ℚ) (g : Game) (ps : List Puck) :
    (Game.collisionLoop delta lifeSeed g ps).2.length = ps.length := by
  induction ps generalizing g with
  | nil => rfl
  | cons p ps ih => simp [Game.collisionLoop, ih]

/-- Spawn accounting: over any sequence of nonnegative elapsed times, each
reported spawn consumes at least one full `spawnInterval` of accumulated
time (the invariant behind "the cadence is never faster than
spawnInterval"). -/
theorem spawnFold_cadence (es : List ℚ) (s : GameState)
    (hnn : ∀ e ∈ es, 0 ≤ e) (h0 : 0 ≤ s.spawnTimer) :
    ((spawnFold s es).2 : ℚ) * s.spawnInterval ≤ s.spawnTimer + es.sum := by
  induction es generalizing s with
  | nil => simpa [spawnFold] using h0
  | cons e es ih =>
      have he : 0 ≤ e := hnn e (List.mem_cons_self _ _)
      have hnn' : ∀ x ∈ es, 0 ≤ x := fun x hx => hnn x (List.mem_cons_of_mem _ hx)
      by_cases hr : s.spawnInterval ≤ s.spawnTimer + e
      · have hstep : s.shouldSpawn e = ({ s with spawnTimer := 0 }, true) := by
          dsimp only [GameState.shouldSpawn]
          rw [if_pos hr]
        have hrec := ih { s with spawnTimer := 0 } hnn' le_rfl
        simp only [spawnFold, hstep, List.sum_cons, if_true] at hrec ⊢
        push_cast at hrec ⊢
        linarith
      · have hstep : s.shouldSpawn e =
            ({ s with spawnTimer := s.spawnTimer + e }, false) := by
          dsimp only [GameState.shouldSpawn]
          rw [if_neg hr]
        have hrec := ih { s with spawnTimer := s.spawnTimer + e } hnn' (by dsimp; linarith)
        simp only [spawnFold, hstep, List.sum_cons, if_false, Bool.false_eq_true] at hrec ⊢
        push_cast at hrec ⊢
        linarith

/-- C10: within one simulation tick at most one puck is spawned (the
frame's puck count grows by at most one before removals), a firing
`shouldSpawn` resets the accumulator to exactly 0 (excess time beyond the
interval is discarded), and over any sequence of nonnegative elapsed-time
ticks the number of spawns times the spawn interval never exceeds the
accumulated elapsed time — the spawn cadence is never faster than
`spawnInterval`. -/
theorem C10_spawn_cadence :
    (∀ (s : GameState) (e : ℚ), (s.shouldSpawn e).2 = true →
      (s.shouldSpawn e).1.spawnTimer = 0) ∧
    (∀ (g : Game) (easedX delta elapsedMs lifeSeed px py pvx pvy : ℚ),
      (g.update easedX delta elapsedMs lifeSeed px py pvx pvy).pucks.length ≤
        g.pucks.length + 1) ∧
    (∀ (s : GameState) (es : List ℚ), (∀ e ∈ es, 0 ≤ e) → 0 ≤ s.spawnTimer →
      ((spawnFold s es).2 : ℚ) * s.spawnInterval ≤ s.spawnTimer + es.sum) := by
  refine ⟨?_, ?_, fun s es hnn h0 => spawnFold_cadence es s hnn h0⟩
  · intro s e h
    dsimp only [GameState.shouldSpawn] at h ⊢
    by_cases hr : s.spawnInterval ≤ s.spawnTimer + e
    · rw [if_pos hr]
    · rw [if_neg hr] at h
      simp at h
  · intro g easedX delta elapsedMs lifeSeed px py pvx pvy
    show (Game.update g easedX delta elapsedMs lifeSeed px py pvx pvy).pucks.length ≤ _
    dsimp only [Game.update]
    calc ((Game.collisionLoop delta lifeSeed _ _).2.filter _).length
        ≤ (Game.collisionLoop delta lifeSeed _ _).2.length :=
          List.length_filter_le _ _
      _ = (Game.framePucks g elapsedMs px py pvx pvy).length :=
          collisionLoop_length _ _ _ _
      _ ≤ g.pucks.length + 1 := by
          dsimp only [Game.framePucks]
          split
          · simp
          · simp

/-- Witness for C10: at the initial state, an 800 ms tick fires a spawn
with the timer reset to 0; the sample frame does not grow the puck list;
and two 800 ms ticks yield spawns consuming at most 1600 ms. -/
theorem C10_spawn_cadence_witness :
    (GameState.initial.shouldSpawn 800).1.spawnTimer = 0 ∧
    (sampleGame.update 300 1 16 0 0 0 0 0).pucks.length ≤
      sampleGame.pucks.length + 1 ∧
    ((spawnFold GameState.initial [800, 800]).2 : ℚ) * GameState.initial.spawnInterval ≤
      GameState.initial.spawnTimer + ([800, 800] : List ℚ).sum := by
  refine ⟨C10_spawn_cadence.1 GameState.initial 800 ?_,
    C10_spawn_cadence.2.1 sampleGame 300 1 16 0 0 0 0 0,
    C10_spawn_cadence.2.2 GameState.initial [800, 800] (by norm_num)
      (by norm_num [GameState.initial])⟩
  norm_num [GameState.shouldSpawn, GameState.initial, GAME.INITIAL_SPAWN_INTERVAL]

/-- C8 counterexample: the claim "every transient visual scalar … never
takes a negative value (it is floored at zero)" fails for the Goalie's
scalars. Twelve frames of `Goalie.update`'s decay at delta = 1 after a
catch (catchFlash = 1) leave the Goalie's catchFlash strictly negative
(1 - 12·0.09 = -0.08): `Goalie.update` subtracts while the value is
positive but never clamps the result. -/
theorem C8_counterexample_goalie_flash_negative :
    (([1, 1, 1, 1, 1, 1, 1, 1, 1, 1, 1, 1] : List ℚ).foldl Goalie.updateFlashes
        Goalie.initial.triggerCatch).catchFlash < 0 := by
  norm_num [List.foldl, Goalie.updateFlashes, Goalie.triggerCatch, Goalie.initial,
    EFFECTS.CATCH_FLASH_DECAY]

/-- C8 as amended: the session catchFlash, the Goal's goalFlash and the
catch-text ttl are floored at zero / cleared and never negative, and every
scalar decays by its fixed rate times delta; but the Goalie's catchFlash
and catchAnimation are decremented without a floor — one update from a
nonnegative value is only bounded below by minus one decay step. -/
theorem C8_amended_effect_decay :
    (∀ (s : GameState) (d : ℚ), 0 ≤ (s.updateEffects d).catchFlash) ∧
    (∀ (goal : Goal) (d : ℚ), 0 ≤ goal.goalFlash → 0 ≤ (goal.update d).goalFlash) ∧
    (∀ (s : GameState) (d : ℚ) (ct : CatchText),
      (s.updateEffects d).catchText = some ct → 0 < ct.ttl) ∧
    (∀ (g : Goalie) (d : ℚ),
      ((g.updateFlashes d).catchFlash = g.catchFlash ∨
        (g.updateFlashes d).catchFlash = g.catchFlash - EFFECTS.CATCH_FLASH_DECAY * d) ∧
      ((g.updateFlashes d).catchAnimation = g.catchAnimation ∨
        (g.updateFlashes d).catchAnimation = g.catchAnimation - (8 / 100) * d) ∧
      (0 ≤ d → 0 ≤ g.catchFlash →
        -(EFFECTS.CATCH_FLASH_DECAY * d) ≤ (g.updateFlashes d).catchFlash) ∧
      (0 ≤ d → 0 ≤ g.catchAnimation →
        -((8 / 100) * d) ≤ (g.updateFlashes d).catchAnimation)) := by
  refine ⟨fun s d => le_max_left _ _, ?_, ?_, ?_⟩
  · intro goal d h
    dsimp only [Goal.update]
    split
    · dsimp only
      split
      · exact le_refl 0
      · linarith [not_lt.mp (by assumption)]
    · exact h
  · intro s d ct h
    dsimp only [GameState.updateEffects] at h
    rcases hs : s.catchText with _ | ct'
    · rw [hs] at h
      simp at h
    · rw [hs] at h
      dsimp only at h
      split at h
      · simp at h
      · simp only [Option.some.injEq] at h
        subst h
        dsimp only
        linarith [not_le.mp (by assumption)]
  · intro g d
    have hdecay : (0 : ℚ) ≤ EFFECTS.CATCH_FLASH_DECAY := by
      norm_num [EFFECTS.CATCH_FLASH_DECAY]
    dsimp only [Goalie.updateFlashes]
    constructor
    · split <;> split <;> simp
    · constructor
      · split <;> split <;> simp
      · constructor
        · intro hd hcf
          have hstep : 0 ≤ EFFECTS.CATCH_FLASH_DECAY * d := mul_nonneg hdecay hd
          split <;> split <;> (try dsimp only) <;> linarith
        · intro hd hca
          have hstep : (0 : ℚ) ≤ (8 / 100) * d := by positivity
          split <;> split <;> (try dsimp only) <;> linarith

/-- Witness for C8 as amended, at concrete inputs: one effects update from
the initial session state keeps catchFlash at 0; a goal flash of 1 stays
nonnegative after one decay at delta = 1; a catch text one frame from
expiry still has positive ttl; and one Goalie decay step at delta = 1 from
a fresh catch is bounded below by -0.09. -/
theorem C8_amended_effect_decay_witness :
    0 ≤ (GameState.initial.updateEffects 1).catchFlash ∧
    0 ≤ (Goal.initial.triggerGoal.update 1).goalFlash ∧
    -(EFFECTS.CATCH_FLASH_DECAY * 1) ≤
      (Goalie.initial.triggerCatch.updateFlashes 1).catchFlash := by
  refine ⟨C8_amended_effect_decay.1 GameState.initial 1,
    C8_amended_effect_decay.2.1 Goal.initial.triggerGoal 1 ?_,
    (C8_amended_effect_decay.2.2.2 Goalie.initial.triggerCatch 1).2.2.1
      (by norm_num) ?_⟩
  · norm_num [Goal.initial, Goal.triggerGoal]
  · norm_num [Goalie.initial, Goalie.triggerCatch]

/-- C4 counterexample: with a leaderboard attached, `Game.restart` sets
`bestScore` from the leaderboard store (`this.leaderboard.getBestScore()`,
per the source comment "Reload best score (might have changed)"), so a
session whose in-memory best (10, e.g. delivered by the remote API at
init) differs from the store's best (5) does NOT keep its pre-restart
bestScore. -/
theorem C4_counterexample_bestScore_reloaded :
    sampleGameLB.state.bestScore = 10 ∧
    sampleGameLB.restart.state.bestScore = 5 ∧
    sampleGameLB.restart.state.bestScore ≠ sampleGameLB.state.bestScore := by
  norm_num [Game.restart, GameState.reset, GameState.setBestScore, sampleGameLB,
    sampleGame, samplePlaying, GameState.initial]

/-- C4 as amended: `restart()` from any state resets score to 0, lives to
`INITIAL_LIVES`, the status to Idle, the spawn and difficulty accumulators
and the transient effects to their initial values, and clears the active
pucks and particles; `GameState.reset()` itself always preserves
bestScore, and `Game.restart` leaves bestScore at its pre-restart value
whenever no leaderboard is attached — with a leaderboard it reloads
bestScore from the external store instead. -/
theorem C4_amended_restart_resets (g : Game) :
    (g.restart).state.score = 0 ∧
    (g.restart).state.lives = GAME.INITIAL_LIVES ∧
    (g.restart).state.status = GameStatus.idle ∧
    (g.restart).state.spawnTimer = 0 ∧
    (g.restart).state.difficultyTimer = 0 ∧
    (g.restart).state.spawnInterval = GAME.INITIAL_SPAWN_INTERVAL ∧
    (g.restart).state.speedBase = GAME.INITIAL_SPEED ∧
    (g.restart).state.frameCount = 0 ∧
    (g.restart).state.catchFlash = 0 ∧
    (g.restart).state.catchText = none ∧
    (g.restart).pucks = [] ∧
    (g.restart).confetti.particles = [] ∧
    (g.restart).goalie = g.goalie.reset ∧
    (g.restart).goal = g.goal.reset ∧
    (g.state.reset).bestScore = g.state.bestScore ∧
    (g.leaderboardBest = none → (g.restart).state.bestScore = g.state.bestScore) ∧
    (∀ b, g.leaderboardBest = some b → (g.restart).state.bestScore = b) := by
  rcases hlb : g.leaderboardBest with _ | b <;>
    simp [Game.restart, GameState.reset, GameState.setBestScore,
      ConfettiSystem.clear, hlb]

/-- Witness for C4 as amended at concrete games: without a leaderboard the
sample game keeps its bestScore across restart; with the sample
leaderboard store the reloaded value is the store's. -/
theorem C4_amended_restart_resets_witness :
    sampleGame.restart.state.score = 0 ∧
    sampleGame.restart.state.bestScore = sampleGame.state.bestScore ∧
    sampleGameLB.restart.state.bestScore = 5 := by
  refine ⟨(C4_amended_restart_resets sampleGame).1,
    (C4_amended_restart_resets sampleGame).2.2.2.2.2.2.2.2.2.2.2.2.2.2.2.1 rfl,
    (C4_amended_restart_resets sampleGameLB).2.2.2.2.2.2.2.2.2.2.2.2.2.2.2.2 5 rfl⟩

/-- `Puck.update` moves the puck but never touches its `caught` flag. -/
theorem Puck.update_caught (p : Puck) (d : ℚ) : (p.update d).caught = p.caught := by
  dsimp only [Puck.update]
  split
  · rfl
  · split <;> rfl

/-- `Puck.update` never touches the `scored` flag. -/
theorem Puck.update_scored (p : Puck) (d : ℚ) : (p.update d).scored = p.scored := by
  dsimp only [Puck.update]
  split
  · rfl
  · split <;> rfl

/-- `Puck.update` never touches the `markedForRemoval` flag. -/
theorem Puck.update_marked (p : Puck) (d : ℚ) :
    (p.update d).markedForRemoval = p.markedForRemoval := by
  dsimp only [Puck.update]
  split
  · rfl
  · split <;> rfl

/-- A puck already flagged caught or scored is skipped by the collision
loop: it is only moved, and the game is left untouched. -/
theorem processPuck_skip (delta lifeSeed : ℚ) (g : Game) (p : Puck)
    (h : p.caught = true ∨ p.scored = true) :
    Game.processPuck delta lifeSeed g p = (g, p.update delta) := by
  dsimp only [Game.processPuck]
  have hc : ((p.update delta).caught || (p.update delta).scored) = true := by
    rcases h with h | h <;> simp [Puck.update_caught, Puck.update_scored, h]
  rw [if_pos hc]

/-- Outcome of one collision-loop iteration on an active puck: the puck is
flagged `scored` exactly when its moved position is in the goal opening,
flagged `caught` exactly when it is not in the goal but in the goalie's
catch zone (the goal test is evaluated first), and any flag set comes with
`markedForRemoval`. -/
theorem processPuck_active (delta lifeSeed : ℚ) (g : Game) (p : Puck)
    (hc : p.caught = false) (hs : p.scored = false) :
    (Game.processPuck delta lifeSeed g p).2.scored =
      checkPuckInGoal (p.update delta) g.goal ∧
    (Game.processPuck delta lifeSeed g p).2.caught =
      (!checkPuckInGoal (p.update delta) g.goal &&
        checkGoalieCatch (p.update delta) g.goalie) ∧
    ((Game.processPuck delta lifeSeed g p).2.caught = true ∨
      (Game.processPuck delta lifeSeed g p).2.scored = true →
      (Game.processPuck delta lifeSeed g p).2.markedForRemoval = true) := by
  dsimp only [Game.processPuck]
  have hflags : ((p.update delta).caught || (p.update delta).scored) = false := by
    simp [Puck.update_caught, Puck.update_scored, hc, hs]
  rw [if_neg (by simp [hflags])]
  by_cases hg : checkPuckInGoal (p.update delta) g.goal = true
  · rw [if_pos hg]
    refine ⟨?_, ?_, ?_⟩
    · split <;> simp [hg]
    · split <;> simp [Puck.update_caught, hc, hg]
    · intro _
      split <;> rfl
  · have hg' : checkPuckInGoal (p.update delta) g.goal = false := by
      rcases h : checkPuckInGoal (p.update delta) g.goal with _ | _
      · rfl
      · exact absurd h hg
    rw [if_neg hg]
    by_cases hcz : checkGoalieCatch (p.update delta) g.goalie = true
    · rw [if_pos hcz]
      refine ⟨?_, ?_, fun _ => rfl⟩
      · simp [Puck.doCatch, Puck.update_scored, hs, hg']
      · simp [Puck.doCatch, hg', hcz]
    · have hcz' : checkGoalieCatch (p.update delta) g.goalie = false := by
        rcases h : checkGoalieCatch (p.update delta) g.goalie with _ | _
        · rfl
        · exact absurd h hcz
      rw [if_neg hcz]
      refine ⟨?_, ?_, ?_⟩
      · simp [Puck.update_scored, hs, hg']
      · simp [Puck.update_caught, hc, hg', hcz']
      · intro h
        rcases h with h | h
        · rw [Puck.update_caught, hc] at h
          cases h
        · rw [Puck.update_scored, hs] at h
          cases h

/-- Flagged-implies-marked is preserved by one collision-loop iteration. -/
theorem processPuck_flag_marked (delta lifeSeed : ℚ) (g : Game) (p : Puck)
    (h : p.caught = true ∨ p.scored = true → p.markedForRemoval = true) :
    (Game.processPuck delta lifeSeed g p).2.caught = true ∨
      (Game.processPuck delta lifeSeed g p).2.scored = true →
    (Game.processPuck delta lifeSeed g p).2.markedForRemoval = true := by
  by_cases hf : p.caught = true ∨ p.scored = true
  · rw [processPuck_skip _ _ _ _ hf]
    intro _
    simp only
    rw [Puck.update_marked]
    exact h hf
  · push_neg at hf
    have hc : p.caught = false := by
      rcases hq : p.caught with _ | _
      · rfl
      · exact absurd hq hf.1
    have hs : p.scored = false := by
      rcases hq : p.scored with _ | _
      · rfl
      · exact absurd hq hf.2
    exact (processPuck_active delta lifeSeed g p hc hs).2.2

/-- Every output puck of the collision loop is the result of processing
one input puck (under some intermediate game state). -/
theorem collisionLoop_mem (delta lifeSeed : ℚ) (g : Game) (ps : List Puck)
    (q : Puck) (hq : q ∈ (Game.collisionLoop delta lifeSeed g ps).2) :
    ∃ p ∈ ps, ∃ g₁, q = (Game.processPuck delta lifeSeed g₁ p).2 := by
  induction ps generalizing g with
  | nil => simp [Game.collisionLoop] at hq
  | cons p ps ih =>
      dsimp only [Game.collisionLoop] at hq
      rcases List.mem_cons.mp hq with h | h
      · exact ⟨p, List.mem_cons_self _ _, g, h⟩
      · obtain ⟨p', hp', g₁, hg₁⟩ := ih (Game.processPuck delta lifeSeed g p).1 h
        exact ⟨p', List.mem_cons_of_mem _ hp', g₁, hg₁⟩

/-- C2: exactly-once outcome per puck with goal-first tie-break. (1) A
puck already flagged caught or scored is skipped by all further collision
tests (only moved, game untouched). (2) For an active puck, one frame sets
`scored` iff the moved puck is in the goal opening and sets `caught` iff
it is not in the goal but in the catch zone — the goal-entry test is
evaluated before the catch test, so the two flags are mutually exclusive
and a scored puck is never also caught — and any flag comes with removal
marking. (3) Whenever every incoming flagged puck is marked for removal
(as is the case for all reachable states, since pucks spawn unflagged and
flags are only ever set together with the mark), every puck still active
after the frame's removal filter is unflagged: flagged pucks are removed
on the very frame that flagged them. -/
theorem C2_exactly_once_outcome :
    (∀ (delta lifeSeed : ℚ) (g : Game) (p : Puck),
      p.caught = true ∨ p.scored = true →
      Game.processPuck delta lifeSeed g p = (g, p.update delta)) ∧
    (∀ (delta lifeSeed : ℚ) (g : Game) (p : Puck),
      p.caught = false → p.scored = false →
      (Game.processPuck delta lifeSeed g p).2.scored =
        checkPuckInGoal (p.update delta) g.goal ∧
      (Game.processPuck delta lifeSeed g p).2.caught =
        (!checkPuckInGoal (p.update delta) g.goal &&
          checkGoalieCatch (p.update delta) g.goalie) ∧
      ¬((Game.processPuck delta lifeSeed g p).2.caught = true ∧
        (Game.processPuck delta lifeSeed g p).2.scored = true) ∧
      ((Game.processPuck delta lifeSeed g p).2.caught = true ∨
        (Game.processPuck delta lifeSeed g p).2.scored = true →
        (Game.processPuck delta lifeSeed g p).2.markedForRemoval = true)) ∧
    (∀ (g : Game) (easedX delta elapsedMs lifeSeed px py pvx pvy : ℚ),
      (∀ p ∈ g.pucks, p.caught = true ∨ p.scored = true →
        p.markedForRemoval = true) →
      ∀ q ∈ (g.update easedX delta elapsedMs lifeSeed px py pvx pvy).pucks,
        q.caught = false ∧ q.scored = false ∧ q.markedForRemoval = false) := by
  refine ⟨processPuck_skip, ?_, ?_⟩
  · intro delta lifeSeed g p hc hs
    obtain ⟨h1, h2, h3⟩ := processPuck_active delta lifeSeed g p hc hs
    refine ⟨h1, h2, ?_, h3⟩
    rintro ⟨hcaught, hscored⟩
    rw [h1] at hscored
    rw [h2, hscored] at hcaught
    simp at hcaught
  · intro g easedX delta elapsedMs lifeSeed px py pvx pvy hin q hq
    have hq' : q ∈ (Game.collisionLoop delta lifeSeed
        { g with
          goalie := { g.goalie.updateFlashes delta with x := easedX }
          state := ((g.state.shouldSpawn elapsedMs).1).updateDifficulty elapsedMs
          pucks := g.framePucks elapsedMs px py pvx pvy }
        (g.framePucks elapsedMs px py pvx pvy)).2 ∧
        (!q.markedForRemoval && !q.isOffScreen) = true := by
      have := List.mem_filter.mp hq
      exact this
    obtain ⟨hmem, hkeep⟩ := hq'
    have hmark : q.markedForRemoval = false := by
      rcases hq2 : q.markedForRemoval with _ | _
      · rfl
      · rw [hq2] at hkeep
        simp at hkeep
    obtain ⟨p, hp, g₁, rfl⟩ := collisionLoop_mem _ _ _ _ _ hmem
    have hpin : p.caught = true ∨ p.scored = true → p.markedForRemoval = true := by
      intro hflag
      have hmemp : p ∈ g.pucks ∨ p = Puck.spawn px py pvx pvy := by
        dsimp only [Game.framePucks] at hp
        rcases hsp : (g.state.shouldSpawn elapsedMs).2 with _ | _
        · rw [hsp] at hp
          simp only [Bool.false_eq_true, if_false] at hp
          exact Or.inl hp
        · rw [hsp] at hp
          simp only [if_true] at hp
          rcases List.mem_append.mp hp with h | h
          · exact Or.inl h
          · exact Or.inr (List.mem_singleton.mp h)
      rcases hmemp with h | rfl
      · exact hin p h hflag
      · rcases hflag with h | h <;> simp [Puck.spawn] at h
    have hflagmark := processPuck_flag_marked delta lifeSeed g₁ p hpin
    have hnotflag : ¬((Game.processPuck delta lifeSeed g₁ p).2.caught = true ∨
        (Game.processPuck delta lifeSeed g₁ p).2.scored = true) := by
      intro hflag
      rw [hflagmark hflag] at hmark
      cases hmark
    push_neg at hnotflag
    refine ⟨?_, ?_, hmark⟩
    · rcases hq2 : (Game.processPuck delta lifeSeed g₁ p).2.caught with _ | _
      · rfl
      · exact absurd hq2 hnotflag.1
    · rcases hq2 : (Game.processPuck delta lifeSeed g₁ p).2.scored with _ | _
      · rfl
      · exact absurd hq2 hnotflag.2

/-- Witness for C2 at concrete inputs: a caught puck is skipped by the
sample frame's collision step, and after the sample frame (whose two
active pucks both enter the goal) every remaining puck is unflagged —
indeed both flagged pucks were removed within the frame. -/
theorem C2_exactly_once_outcome_witness :
    Game.processPuck 1 0 sampleGame sampleCaughtPuck =
      (sampleGame, sampleCaughtPuck.update 1) ∧
    ∀ q ∈ (sampleGame.update 300 1 16 0 0 0 0 0).pucks,
      q.caught = false ∧ q.scored = false ∧ q.markedForRemoval = false := by
  constructor
  · exact C2_exactly_once_outcome.1 1 0 sampleGame sampleCaughtPuck
      (Or.inl (by norm_num [sampleCaughtPuck, Puck.doCatch, Puck.spawn]))
  · exact C2_exactly_once_outcome.2.2 sampleGame 300 1 16 0 0 0 0 0
      (by
        intro p hp
        have : p = sampleGoalPuck ∨ p = sampleGoalPuck := by
          simpa [sampleGame] using hp
        rcases this with rfl | rfl <;>
          simp [sampleGoalPuck, Puck.spawn])

/-- `updateBestScore` never changes lives. -/
theorem updateBestScore_lives (s : GameState) : s.updateBestScore.lives = s.lives := by
  dsimp only [GameState.updateBestScore]
  split <;> rfl

/-- `shouldSpawn` never changes lives. -/
theorem shouldSpawn_lives (s : GameState) (e : ℚ) :
    (s.shouldSpawn e).1.lives = s.lives := by
  dsimp only [GameState.shouldSpawn]
  split <;> rfl

/-- `updateDifficulty` never changes lives. -/
theorem updateDifficulty_lives (s : GameState) (e : ℚ) :
    (s.updateDifficulty e).lives = s.lives := by
  dsimp only [GameState.updateDifficulty]
  split <;> rfl

/-- One collision-loop iteration leaves the goal unchanged except possibly
for triggering its flash; in particular its geometry is unchanged. -/
theorem processPuck_goal (delta lifeSeed : ℚ) (g : Game) (p : Puck) :
    (Game.processPuck delta lifeSeed g p).1.goal = g.goal ∨
    (Game.processPuck delta lifeSeed g p).1.goal = g.goal.triggerGoal := by
  dsimp only [Game.processPuck]
  split
  · exact Or.inl rfl
  · split
    · split
      · exact Or.inr rfl
      · exact Or.inr rfl
    · split
      · exact Or.inl rfl
      · exact Or.inl rfl

/-- The goal-entry observation is invariant under the goal-flash changes
performed by the collision loop (it reads only the goal's geometry). -/
theorem entersGoal_processPuck (delta lifeSeed d2 : ℚ) (g : Game) (p q : Puck) :
    Puck.entersGoal q d2 (Game.processPuck delta lifeSeed g p).1.goal =
      Puck.entersGoal q d2 g.goal := by
  rcases processPuck_goal delta lifeSeed g p with h | h
  · rw [h]
  · rw [h]
    rfl

/-- Lives/end-call accounting for one collision-loop iteration: a puck
entering the goal costs one life and invokes `end()` exactly when the
decremented lives are ≤ 0; any other puck leaves both untouched. -/
theorem processPuck_lives (delta lifeSeed : ℚ) (g : Game) (p : Puck) :
    (Puck.entersGoal p delta g.goal = true →
      (Game.processPuck delta lifeSeed g p).1.state.lives = g.state.lives - 1 ∧
      (Game.processPuck delta lifeSeed g p).1.endCalls =
        g.endCalls + (if g.state.lives - 1 ≤ 0 then 1 else 0)) ∧
    (Puck.entersGoal p delta g.goal = false →
      (Game.processPuck delta lifeSeed g p).1.state.lives = g.state.lives ∧
      (Game.processPuck delta lifeSeed g p).1.endCalls = g.endCalls) := by
  dsimp only [Game.processPuck, Puck.entersGoal]
  by_cases hf : ((p.update delta).caught || (p.update delta).scored) = true
  · rw [if_pos hf]
    constructor
    · intro h
      rw [hf] at h
      simp at h
    · intro _
      exact ⟨rfl, rfl⟩
  · have hf' : ((p.update delta).caught || (p.update delta).scored) = false := by
      rcases h : ((p.update delta).caught || (p.update delta).scored) with _ | _
      · rfl
      · exact absurd h hf
    rw [if_neg hf]
    by_cases hg : checkPuckInGoal (p.update delta) g.goal = true
    · rw [if_pos hg]
      constructor
      · intro _
        by_cases hover : (g.state.decrementLives).2 = true
        · rw [if_pos hover]
          have hcond : g.state.lives - 1 ≤ 0 := by
            dsimp only [GameState.decrementLives] at hover
            exact of_decide_eq_true hover
          rw [if_pos hcond]
          constructor
          · show ((Game.endGame _ lifeSeed)).state.lives = _
            dsimp only [Game.endGame]
            rw [GameState.endGame, updateBestScore_lives]
            rfl
          · rfl
        · rw [if_neg hover]
          have hcond : ¬ g.state.lives - 1 ≤ 0 := by
            dsimp only [GameState.decrementLives] at hover
            intro hle
            exact hover (decide_eq_true hle)
          rw [if_neg hcond]
          exact ⟨rfl, rfl⟩
      · intro h
        rw [hf', hg] at h
        simp at h
    · have hg' : checkPuckInGoal (p.update delta) g.goal = false := by
        rcases h : checkPuckInGoal (p.update delta) g.goal with _ | _
        · rfl
        · exact absurd h hg
      rw [if_neg hg]
      constructor
      · intro h
        rw [hg'] at h
        simp at h
      · intro _
        split
        · exact ⟨rfl, rfl⟩
        · exact ⟨rfl, rfl⟩

/-- Lives/end-call accounting over the whole collision loop: with k pucks
entering the goal this frame, lives drop by exactly k, and `end()` is
invoked once for every decrement that lands at or below zero — that is
`min k (k + 1 - lives)⁺` times. -/
theorem collisionLoop_lives (delta lifeSeed : ℚ) (ps : List Puck) (g : Game) :
    (Game.collisionLoop delta lifeSeed g ps).1.state.lives =
      g.state.lives - ps.countP (fun p => Puck.entersGoal p delta g.goal) ∧
    (Game.collisionLoop delta lifeSeed g ps).1.endCalls =
      g.endCalls + min (ps.countP (fun p => Puck.entersGoal p delta g.goal))
        (((ps.countP (fun p => Puck.entersGoal p delta g.goal) : ℤ) + 1 -
          g.state.lives).toNat) := by
  induction ps generalizing g with
  | nil => simp [Game.collisionLoop]
  | cons p ps ih =>
      dsimp only [Game.collisionLoop]
      have hk : ps.countP
            (fun q => Puck.entersGoal q delta (Game.processPuck delta lifeSeed g p).1.goal) =
          ps.countP (fun q => Puck.entersGoal q delta g.goal) := by
        have hfun : (fun q => Puck.entersGoal q delta (Game.processPuck delta lifeSeed g p).1.goal) =
            (fun q => Puck.entersGoal q delta g.goal) :=
          funext (fun q => entersGoal_processPuck delta lifeSeed delta g p q)
        rw [hfun]
      have ih' := ih (Game.processPuck delta lifeSeed g p).1
      rw [hk] at ih'
      have hstep := processPuck_lives delta lifeSeed g p
      rcases hb : Puck.entersGoal p delta g.goal with _ | _
      · have hs := hstep.2 hb
        rw [List.countP_cons, hb]
        simp only [Bool.false_eq_true, if_false, add_zero]
        exact ⟨by rw [ih'.1, hs.1], by rw [ih'.2, hs.2, hs.1]⟩
      · have hs := hstep.1 hb
        rw [List.countP_cons, hb]
        simp only [if_true]
        constructor
        · rw [ih'.1, hs.1]
          push_cast
          ring
        · rw [ih'.2, hs.2, hs.1]
          by_cases hL : g.state.lives - 1 ≤ 0
          · rw [if_pos hL]
            omega
          · rw [if_neg hL]
            omega

/-- C1 counterexample: the claim fails when several pucks enter the goal
in the same frame. In the sample game (status Playing, lives = 1, two
active pucks both inside the goal opening after this frame's movement),
one `Game.update` leaves lives at -1 — the lives counter IS negative —
and invokes `end()` twice in the same playthrough. -/
theorem C1_counterexample_double_goal :
    (sampleGame.update 300 1 16 0 0 0 0 0).state.lives = -1 ∧
    (sampleGame.update 300 1 16 0 0 0 0 0).endCalls = 2 := by
  norm_num [Game.update, Game.framePucks, Game.collisionLoop, Game.processPuck,
    Game.endGame, GameState.shouldSpawn, GameState.updateDifficulty,
    GameState.decrementLives, GameState.updateBestScore, GameState.endGame,
    GameState.updateEffects, GameState.tick, GameState.incrementScore,
    Goal.update, Goal.triggerGoal, Goal.getBounds, Goal.initial,
    Goalie.updateFlashes, Goalie.triggerCatch, Goalie.getCatchBounds, Goalie.initial,
    Puck.update, Puck.doCatch, Puck.isOffScreen, Puck.spawn,
    checkPuckInGoal, checkGoalieCatch, ConfettiSystem.update,
    sampleGame, samplePlaying, sampleGoalPuck, GameState.initial,
    CANVAS.WIDTH, CANVAS.HEIGHT, GAME.INITIAL_LIVES, GAME.INITIAL_SPAWN_INTERVAL,
    GAME.INITIAL_SPEED, GAME.DIFFICULTY_RAMP_INTERVAL, GAME.MIN_SPAWN_INTERVAL,
    GAME.MAX_SPEED, GAME.SPAWN_INTERVAL_DECREASE, GAME.SPEED_INCREASE,
    PUCK.MIN_RADIUS, PUCK.OFFSCREEN_MARGIN, GOAL.WIDTH, GOAL.HEIGHT, GOAL.Y_OFFSET,
    GOALIE.WIDTH, GOALIE.HEIGHT, GOALIE.Y_OFFSET, GOALIE.CATCH_WIDTH,
    GOALIE.CATCH_HEIGHT, EFFECTS.CATCH_FLASH_DECAY, EFFECTS.CATCH_TEXT_DURATION]

/-- C1 as amended: in every frame update with k pucks entering the goal,
lives drop by exactly k (so they can go negative when k exceeds the
remaining lives) and `end()` is invoked `min k (k + 1 - lives)⁺` times
(once per goal at or below zero lives); consequently, whenever at most
`lives` pucks enter the goal in the frame, lives stay nonnegative and
`end()` is invoked at most once. -/
theorem C1_amended_lives_end_accounting (g : Game)
    (easedX delta elapsedMs lifeSeed px py pvx pvy : ℚ) :
    (g.update easedX delta elapsedMs lifeSeed px py pvx pvy).state.lives =
      g.state.lives -
        (g.framePucks elapsedMs px py pvx pvy).countP
          (fun p => Puck.entersGoal p delta g.goal) ∧
    (g.update easedX delta elapsedMs lifeSeed px py pvx pvy).endCalls =
      g.endCalls +
        min ((g.framePucks elapsedMs px py pvx pvy).countP
            (fun p => Puck.entersGoal p delta g.goal))
          ((((g.framePucks elapsedMs px py pvx pvy).countP
              (fun p => Puck.entersGoal p delta g.goal) : ℤ) + 1 -
            g.state.lives).toNat) ∧
    (0 < g.state.lives →
      ((g.framePucks elapsedMs px py pvx pvy).countP
          (fun p => Puck.entersGoal p delta g.goal) : ℤ) ≤ g.state.lives →
      0 ≤ (g.update easedX delta elapsedMs lifeSeed px py pvx pvy).state.lives ∧
      (g.update easedX delta elapsedMs lifeSeed px py pvx pvy).endCalls ≤
        g.endCalls + 1) := by
  have hloop := collisionLoop_lives delta lifeSeed
    (g.framePucks elapsedMs px py pvx pvy)
    { g with
      goalie := { g.goalie.updateFlashes delta with x := easedX }
      state := ((g.state.shouldSpawn elapsedMs).1).updateDifficulty elapsedMs
      pucks := g.framePucks elapsedMs px py pvx pvy }
  have hlives : (((g.state.shouldSpawn elapsedMs).1).updateDifficulty elapsedMs).lives =
      g.state.lives := by
    rw [updateDifficulty_lives, shouldSpawn_lives]
  rw [hlives] at hloop
  have h1 : (g.update easedX delta elapsedMs lifeSeed px py pvx pvy).state.lives =
      g.state.lives -
        (g.framePucks elapsedMs px py pvx pvy).countP
          (fun p => Puck.entersGoal p delta g.goal) := hloop.1
  have h2 : (g.update easedX delta elapsedMs lifeSeed px py pvx pvy).endCalls =
      g.endCalls +
        min ((g.framePucks elapsedMs px py pvx pvy).countP
            (fun p => Puck.entersGoal p delta g.goal))
          ((((g.framePucks elapsedMs px py pvx pvy).countP
              (fun p => Puck.entersGoal p delta g.goal) : ℤ) + 1 -
            g.state.lives).toNat) := hloop.2
  refine ⟨h1, h2, fun hpos hk => ⟨?_, ?_⟩⟩
  · rw [h1]
    omega
  · rw [h2]
    omega

/-- Witness for the amended C1 at a concrete input: a frame of a
three-lives game containing a single goal-bound puck keeps lives
nonnegative (at 2) and performs no lifecycle end. -/
theorem C1_amended_lives_end_accounting_witness :
    0 ≤ (({ sampleGame with
        state := { samplePlaying with lives := 3 },
        pucks := [sampleGoalPuck] } : Game).update 300 1 16 0 0 0 0 0).state.lives ∧
    (({ sampleGame with
        state := { samplePlaying with lives := 3 },
        pucks := [sampleGoalPuck] } : Game).update 300 1 16 0 0 0 0 0).endCalls ≤
      ({ sampleGame with
        state := { samplePlaying with lives := 3 },
        pucks := [sampleGoalPuck] } : Game).endCalls + 1 := by
  have h := (C1_amended_lives_end_accounting
    ({ sampleGame with
        state := { samplePlaying with lives := 3 },
        pucks := [sampleGoalPuck] } : Game) 300 1 16 0 0 0 0 0).2.2
    (by norm_num [sampleGame, samplePlaying, GameState.initial])
    (by
      norm_num [Game.framePucks, GameState.shouldSpawn, List.countP_cons,
        Puck.entersGoal, Puck.update, checkPuckInGoal, Goal.getBounds,
        Goal.initial, Puck.spawn, sampleGame, samplePlaying, sampleGoalPuck,
        GameState.initial, CANVAS.WIDTH, CANVAS.HEIGHT, GOAL.WIDTH, GOAL.HEIGHT,
        GOAL.Y_OFFSET, PUCK.MIN_RADIUS, GAME.INITIAL_SPAWN_INTERVAL])
  exact h

end PuckGame
